import Mathlib

/-!
Shallow embedding of the authentication core of the chirps HTTP server
(src/src/auth.ts, src/src/db/queries/refreshTokens.ts, src/dist/index.js),
together with proofs about its specified behaviour.

Conventions of the embedding:
* JavaScript strings are Lean `String`s; the few string operations the code
  uses (`trim`, `startsWith`, `substring`, `split(" ")`, `toLowerCase`,
  `includes`) are re-implemented below over `List Char` so that they are
  structurally recursive and evaluate inside the kernel.  JS measures
  `.length` and `substring` offsets in UTF-16 code units; all literals the
  code compares against are ASCII, where code units and code points agree.
* `Date.now()` / `new Date()` are passed in explicitly as an integer `now`
  (epoch seconds for the JWT code, an abstract instant for DB timestamps).
* Throwing code is embedded as `Except`: the thrown `Error`'s message (and,
  for the HTTP error classes, its status code) is the error value.
* The HMAC-SHA256 signature produced by the jsonwebtoken library is
  modelled as an ideal MAC: the signature value is the triple
  (header algorithm, payload, signing key) and signature verification is
  equality of triples.
* Database queries are functions `DB → ... → result × DB`; a SQL SELECT
  returns the state unchanged, a SQL UPDATE returns the updated state.
-/

/-! ## JavaScript string primitives -/

/-- The whitespace characters stripped by JavaScript `String.prototype.trim`
(restricted to the ASCII range; header and token literals in this code are
ASCII). -/
def jsWhitespaceChar (c : Char) : Bool :=
  c = ' ' || c = '\t' || c = '\n' || c = '\r' || c = '\x0b' || c = '\x0c'

/-- JavaScript `s.trim()`: strip leading and trailing whitespace. -/
def jsTrim (s : String) : String :=
  ⟨(((s.toList.dropWhile jsWhitespaceChar).reverse.dropWhile jsWhitespaceChar).reverse)⟩

/-- JavaScript `s.startsWith(pre)`. -/
def jsStartsWith (s pre : String) : Bool :=
  pre.toList.isPrefixOf s.toList

/-- JavaScript `s.substring(n)` (drop the first `n` code units; the only call
site drops the 7 ASCII characters of "Bearer "). -/
def jsSubstringFrom (s : String) (n : Nat) : String :=
  ⟨s.toList.drop n⟩

/-- JavaScript `s.split(" ")` on `List Char`: split at every single space. -/
def jsSplitSpacesAux : List Char → List Char → List String
  | [], acc => [⟨acc.reverse⟩]
  | c :: rest, acc =>
      if c = ' ' then ⟨acc.reverse⟩ :: jsSplitSpacesAux rest []
      else jsSplitSpacesAux rest (c :: acc)

/-- JavaScript `s.split(" ")`. -/
def jsSplitSpaces (s : String) : List String :=
  jsSplitSpacesAux s.toList []

/-- JavaScript `s.toLowerCase()` (ASCII case folding; the banned-word list is
ASCII). -/
def jsToLower (s : String) : String :=
  ⟨s.toList.map Char.toLower⟩

/-- Does `pat` occur as a contiguous substring of `l`? -/
def listContainsSub : List Char → List Char → Bool
  | [], pat => pat.isEmpty
  | l@(_ :: rest), pat => pat.isPrefixOf l || listContainsSub rest pat

/-- JavaScript `s.includes(pat)`. -/
def jsIncludes (s pat : String) : Bool :=
  listContainsSub s.toList pat.toList

/-! ## The jsonwebtoken library model

`makeJWT` and `validateJWT` in src/src/auth.ts delegate to `jwt.sign` and
`jwt.verify` of the jsonwebtoken npm library.  The library is modelled here:
a token is either a malformed string (fails decoding) or a signed triple of
header algorithm, payload and signature.  The payload carries exactly the
fields `makeJWT` sets (`iss`, `sub`, `iat`, `exp`); `nbf` is never set by
this code base, so `jwt.verify`'s not-before check never fires and is
omitted. -/

/-- The JWT payload fields used by this code (`Pick<JwtPayload, "iss" | "sub"
| "iat" | "exp">`).  A missing field is `none`. -/
structure JwtPayload where
  iss : Option String
  sub : Option String
  iat : Option Int
  exp : Option Int
deriving DecidableEq, Repr

/-- Ideal model of the HMAC signature over the encoded header and payload:
the signature determines (and is determined by) the header algorithm, the
payload, and the signing key. -/
structure Hs256Sig where
  alg : String
  payload : JwtPayload
  key : String
deriving DecidableEq, Repr

/-- A JWT token string: either malformed (fails jws decoding) or a signed
header/payload/signature triple. -/
inductive JwtToken where
  | malformed (raw : String)
  | signed (alg : String) (payload : JwtPayload) (sig : Hs256Sig)
deriving DecidableEq, Repr

/-- The algorithms jwt.verify accepts by default when the key is a plain
secret string. -/
def jwtAllowedAlgs : List String := ["HS256", "HS384", "HS512"]

/-- The error classes thrown by `jwt.verify` (all are `JsonWebTokenError`s;
`TokenExpiredError` is a subclass). -/
inductive JwtVerifyError where
  | jwtMalformed
  | invalidAlgorithm
  | invalidSignature
  | tokenExpired
deriving DecidableEq, Repr

/-- `error instanceof jwt.JsonWebTokenError`.  In the jsonwebtoken library
`TokenExpiredError` and `NotBeforeError` are subclasses of
`JsonWebTokenError`, so this test is true for every error `jwt.verify`
throws. -/
def JwtVerifyError.isJsonWebTokenError (_ : JwtVerifyError) : Bool := true

/-- `error instanceof jwt.TokenExpiredError`. -/
def JwtVerifyError.isTokenExpiredError : JwtVerifyError → Bool
  | .tokenExpired => true
  | _ => false

/-- `error instanceof jwt.NotBeforeError`: this code base never sets `nbf`,
so `jwt.verify` never throws `NotBeforeError` on its tokens. -/
def JwtVerifyError.isNotBeforeError (_ : JwtVerifyError) : Bool := false

/-- The message carried by the library error (used only if re-thrown). -/
def JwtVerifyError.message : JwtVerifyError → String
  | .jwtMalformed => "jwt malformed"
  | .invalidAlgorithm => "invalid algorithm"
  | .invalidSignature => "invalid signature"
  | .tokenExpired => "jwt expired"

/-- `jwt.sign(payload, secret)` with default options and a string secret:
HS256 header, signature over the encoded header and payload with `secret`.
The provided `iat` and `exp` claims are passed through unchanged. -/
def jwtSign (payload : JwtPayload) (secret : String) : JwtToken :=
  .signed "HS256" payload ⟨"HS256", payload, secret⟩

/-- `jwt.verify(token, secret)` with default options, at current time `now`
(epoch seconds): decode (malformed tokens fail), check the header algorithm
against the defaults for a string secret, check the signature, then fail
with `TokenExpiredError` when `clockTimestamp >= payload.exp`. -/
def jwtVerify (tok : JwtToken) (secret : String) (now : Int) :
    Except JwtVerifyError JwtPayload :=
  match tok with
  | .malformed _ => .error .jwtMalformed
  | .signed alg payload sig =>
      if jwtAllowedAlgs.contains alg = false then .error .invalidAlgorithm
      else if sig = ⟨alg, payload, secret⟩ then
        match payload.exp with
        | some exp => if exp ≤ now then .error .tokenExpired else .ok payload
        | none => .ok payload
      else .error .invalidSignature

/-! ## src/src/auth.ts -/

/-- `makeJWT(userID, expiresIn, secret)` issued at time `now` =
`Math.floor(Date.now() / 1000)`: signs the payload
`{iss: "chirpy", sub: userID, iat: now, exp: now + expiresIn}`. -/
def makeJWT (userID : String) (expiresIn : Int) (secret : String) (now : Int) :
    JwtToken :=
  jwtSign { iss := some "chirpy", sub := some userID, iat := some now,
            exp := some (now + expiresIn) } secret

/-- What the `try` block of `validateJWT` throws: a jsonwebtoken library
error, or a plain `new Error(msg)`. -/
inductive JsThrown where
  | jwtError (e : JwtVerifyError)
  | plainError (msg : String)
deriving DecidableEq, Repr

/-- The `try` block of `validateJWT`: `jwt.verify`, then
`if (!decoded.sub) throw new Error("Token does not contain a subject")`
(`!decoded.sub` is true for an absent `sub` and for the empty string),
else return `decoded.sub`. -/
def validateJWTBody (tok : JwtToken) (secret : String) (now : Int) :
    Except JsThrown String :=
  match jwtVerify tok secret now with
  | .error e => .error (.jwtError e)
  | .ok decoded =>
      match decoded.sub with
      | none => .error (.plainError "Token does not contain a subject")
      | some s =>
          if s = "" then .error (.plainError "Token does not contain a subject")
          else .ok s

/-- The `catch` block of `validateJWT`, branch for branch:
`instanceof JsonWebTokenError` → "Invalid token";
`instanceof TokenExpiredError` → "Token has expired";
`instanceof NotBeforeError` → "Token not active yet";
otherwise the original error is re-thrown. -/
def validateJWTCatch : JsThrown → String
  | .jwtError e =>
      if e.isJsonWebTokenError then "Invalid token"
      else if e.isTokenExpiredError then "Token has expired"
      else if e.isNotBeforeError then "Token not active yet"
      else e.message
  | .plainError msg => msg

/-- `validateJWT(tokenString, secret)` at current time `now`: the `try`
block wrapped in the `catch` block; the result is the returned subject or
the message of the escaping error. -/
def validateJWT (tok : JwtToken) (secret : String) (now : Int) :
    Except String String :=
  match validateJWTBody tok secret now with
  | .ok s => .ok s
  | .error e => .error (validateJWTCatch e)

/-- `getBearerToken(req)` reading the Authorization header (absent header =
`none`): `!authHeader || authHeader.trim() === ""` fails with
"Authorization header is missing"; a trimmed value not starting with
"Bearer " fails with "Authorization header must start with \x27Bearer \x27";
otherwise return `trimmedHeader.substring(7).trim()`. -/
def getBearerToken (authHeader : Option String) : Except String String :=
  match authHeader with
  | none => .error "Authorization header is missing"
  | some h =>
      if h = "" || jsTrim h = "" then .error "Authorization header is missing"
      else
        let trimmedHeader := jsTrim h
        if jsStartsWith trimmedHeader "Bearer " = false then
          .error "Authorization header must start with \x27Bearer \x27"
        else .ok (jsTrim (jsSubstringFrom trimmedHeader 7))

/-- `checkPasswordHash(password, hash)`, parameterized by the behaviour of
the argon2 library collaborator `argon2.verify(hash, password)` (which
either resolves to a boolean or rejects with some error): any error is
converted to the return value `false`. -/
def checkPasswordHash (argon2verify : String → String → Except String Bool)
    (password hash : String) : Bool :=
  match argon2verify hash password with
  | .ok b => b
  | .error _ => false

/-! ## src/src/schema.ts: persisted rows -/

/-- A row of the `users` table (src/src/schema.ts). -/
structure User where
  id : String
  createdAt : Int
  updatedAt : Int
  email : String
  hashed_password : String
  is_chirpy_red : Bool
deriving DecidableEq, Repr

/-- A row of the `refresh_tokens` table (src/src/schema.ts): `token` is the
primary key, `userId` references `users.id`, `revokedAt` is nullable
(`none` = active). -/
structure RefreshTokenRecord where
  token : String
  createdAt : Int
  updatedAt : Int
  userId : String
  expiresAt : Int
  revokedAt : Option Int
deriving DecidableEq, Repr

/-- The database state the refresh-token queries touch. -/
structure DB where
  users : List User
  refreshTokens : List RefreshTokenRecord
deriving DecidableEq, Repr

/-- The WHERE clause of the redemption queries:
`eq(refreshTokens.token, tokenString)`, `isNull(refreshTokens.revokedAt)`,
`gt(refreshTokens.expiresAt, new Date())`. -/
def refreshTokenUsable (tokenString : String) (now : Int)
    (r : RefreshTokenRecord) : Bool :=
  r.token == tokenString && r.revokedAt == none && decide (now < r.expiresAt)

/-! ## src/src/db/queries/refreshTokens.ts -/

/-- `getUserFromRefreshToken(tokenString)`: SELECT the user columns FROM
refresh_tokens INNER JOIN users ON refresh_tokens.user_id = users.id WHERE
the token matches, is not revoked and is not yet expired; `[result]` takes
the first row (`token` is the primary key, so at most one refresh row
matches), `result || null`.  A SELECT leaves the database unchanged. -/
def getUserFromRefreshToken (db : DB) (tokenString : String) (now : Int) :
    Option User × DB :=
  (match db.refreshTokens.find? (refreshTokenUsable tokenString now) with
   | none => none
   | some r => db.users.find? (fun u => u.id == r.userId),
   db)

/-- The row transformation of the revoke UPDATE: the matching row gets
`revoked_at = now` (and `updated_at = now` via drizzle `$onUpdate`); other
rows are untouched. -/
def revokeUpdateRow (tokenString : String) (now : Int)
    (r : RefreshTokenRecord) : RefreshTokenRecord :=
  if r.token == tokenString then
    { r with revokedAt := some now, updatedAt := now }
  else r

/-- `revokeRefreshToken(tokenString)`: UPDATE refresh_tokens SET revoked_at
= now WHERE token = tokenString RETURNING *; drizzle's `$onUpdate` on
`updatedAt` also sets `updated_at = now` on every updated row.  `[result]`
takes the first returned row, `result || null`. -/
def revokeRefreshToken (db : DB) (tokenString : String) (now : Int) :
    Option RefreshTokenRecord × DB :=
  let updated := db.refreshTokens.map (revokeUpdateRow tokenString now)
  (updated.find? (fun r => r.token == tokenString),
   { db with refreshTokens := updated })

/-! ## Request handlers (src/dist/index.js)

A handler outcome is the HTTP response the express error-handling
middleware ultimately produces: a success status (with the minted access
token where one is returned) or an error status with its message. -/

/-- The observable outcome of a request handler. -/
inductive HandlerResult where
  | ok (status : Nat)
  | okToken (status : Nat) (token : JwtToken)
  | httpError (status : Nat) (msg : String)
deriving DecidableEq, Repr

/-- The redemption step of `handlerRefreshAccessToken` (src/dist/index.js
lines 173-176): look the token up; a missing user throws
`UnauthorizedError("Invalid or expired refresh token")`, a found user's id
is the redeemed identity. -/
def redeemRefreshToken (db : DB) (tokenString : String) (now : Int) :
    Except String String :=
  match (getUserFromRefreshToken db tokenString now).1 with
  | none => .error "Invalid or expired refresh token"
  | some user => .ok user.id

/-- `handlerRefreshAccessToken` (src/dist/index.js lines 170-188): extract
the bearer token, redeem it, mint a fresh one-hour access token.  Both the
bearer-extraction errors (their messages contain "Authorization header")
and the `UnauthorizedError` (its message contains "refresh token") are
remapped by the handler's catch to a 401
`UnauthorizedError("Invalid or missing refresh token")`. -/
def handlerRefreshAccessToken (db : DB) (authHeader : Option String)
    (secret : String) (now : Int) : HandlerResult × DB :=
  match getBearerToken authHeader with
  | .error _ => (.httpError 401 "Invalid or missing refresh token", db)
  | .ok tokenString =>
      let q := getUserFromRefreshToken db tokenString now
      match q.1 with
      | none => (.httpError 401 "Invalid or missing refresh token", q.2)
      | some user =>
          (.okToken 200 (makeJWT user.id 3600 secret now), q.2)

/-- `handlerRevokeRefreshToken` (src/dist/index.js lines 189-206): extract
the bearer token, run the revoke UPDATE; a null result throws
`UnauthorizedError("Invalid refresh token")` (401, re-thrown unchanged by
the catch); bearer-extraction errors become a 401
`UnauthorizedError("Invalid or missing refresh token")`; success is 204. -/
def handlerRevokeRefreshToken (db : DB) (authHeader : Option String)
    (now : Int) : HandlerResult × DB :=
  match getBearerToken authHeader with
  | .error _ => (.httpError 401 "Invalid or missing refresh token", db)
  | .ok tokenString =>
      let q := revokeRefreshToken db tokenString now
      match q.1 with
      | none => (.httpError 401 "Invalid refresh token", q.2)
      | some _ => (.ok 204, q.2)

/-! ## handlerCreateChirp (src/dist/index.js lines 260-303) -/

/-- The `body` field of the request payload: a string, or any non-string
value (absent, number, object, ...), which `typeof body !== "string"`
rejects. -/
inductive BodyField where
  | str (s : String)
  | notStr
deriving DecidableEq, Repr

/-- The banned-word list of `handlerCreateChirp`. -/
def bannedWords : List String := ["kerfuffle", "sharbert", "fornax"]

/-- `body.split(" ").some((token) => bannedWords.includes(token.toLowerCase()))`. -/
def hasBannedWord (body : String) : Bool :=
  (jsSplitSpaces body).any (fun tok => bannedWords.contains (jsToLower tok))

/-- The catch block of `handlerCreateChirp` for an error thrown inside its
`try` (bearer extraction or JWT validation; the "foreign key" branch
belongs to the chirp INSERT, which is not modelled): messages containing
"Authorization header", "Invalid token" or "expired" become a 401
`UnauthorizedError("Invalid or missing authentication token")`; anything
else is re-thrown and the express error middleware answers 500. -/
def createChirpCatch (msg : String) : HandlerResult :=
  if jsIncludes msg "Authorization header" || jsIncludes msg "Invalid token"
      || jsIncludes msg "expired" then
    .httpError 401 "Invalid or missing authentication token"
  else .httpError 500 "Something went wrong on our end"

/-- `handlerCreateChirp`: validate the body (string type, length at most
140, no banned word) and only then extract and validate the bearer JWT.
`parseToken` is the jws decoding of the extracted token string; the chirp
INSERT is modelled as succeeding with status 201, since no claim concerns
it. -/
def handlerCreateChirp (parseToken : String → JwtToken) (body : BodyField)
    (authHeader : Option String) (secret : String) (now : Int) :
    HandlerResult :=
  match body with
  | .notStr => .httpError 400 "Body is required and must be a string"
  | .str s =>
      if 140 < s.length then
        .httpError 400 "Chirp is too long. Max length is 140"
      else if hasBannedWord s then
        .httpError 400 "Chirp contains banned words"
      else
        match getBearerToken authHeader with
        | .error msg => createChirpCatch msg
        | .ok tokenString =>
            match validateJWT (parseToken tokenString) secret now with
            | .error msg => createChirpCatch msg
            | .ok _userId => .ok 201

/-! ## Concrete data used by counterexamples and witnesses -/

deriving instance DecidableEq for Except

/-- A payload carrying no `sub` claim. -/
def subjectlessPayload : JwtPayload :=
  { iss := some "chirpy", sub := none, iat := some 0, exp := some 1000 }

/-- A correctly signed token (under secret "k") whose payload lacks `sub`. -/
def subjectlessToken : JwtToken :=
  .signed "HS256" subjectlessPayload ⟨"HS256", subjectlessPayload, "k"⟩

/-- A user row for the redemption scenarios. -/
def c6User : User := ⟨"u1", 0, 0, "alice@example.com", "stored-hash", false⟩

/-- An active refresh record, expiring at 100. -/
def c6TokenFresh : RefreshTokenRecord := ⟨"tok1", 0, 0, "u1", 100, none⟩

/-- A refresh record with past expiry (10) and `revokedAt` still null. -/
def c6TokenStale : RefreshTokenRecord := ⟨"tok2", 0, 0, "u1", 10, none⟩

/-- Storage holding one user and the two refresh records above. -/
def c6DB : DB := ⟨[c6User], [c6TokenFresh, c6TokenStale]⟩

/-- A refresh record that is both expired (at 10) and already revoked. -/
def c7Record : RefreshTokenRecord := ⟨"tok1", 0, 0, "u1", 10, some 5⟩

/-- Storage holding only the revoked-and-expired record. -/
def c7DB : DB := ⟨[], [c7Record]⟩

/-- Empty storage. -/
def emptyDB : DB := ⟨[], []⟩

/-- A user and an active refresh record for the frame-property witness. -/
def c8DB : DB := ⟨[⟨"u1", 0, 0, "alice@example.com", "stored-hash", false⟩],
                  [⟨"tok1", 0, 0, "u1", 100, none⟩]⟩

/-! ## Helper lemmas -/

/-- Unfolding of the usability predicate of the redemption WHERE clause. -/
theorem refreshTokenUsable_iff (tokenString : String) (now : Int)
    (r : RefreshTokenRecord) :
    refreshTokenUsable tokenString now r = true ↔
      r.token = tokenString ∧ r.revokedAt = none ∧ now < r.expiresAt := by
  simp [refreshTokenUsable, Bool.and_eq_true, beq_iff_eq, decide_eq_true_eq,
    and_assoc]

/-- `jwt.verify` on a token issued by `makeJWT` under the same secret:
it succeeds with the signed payload unless the expiry has passed. -/
theorem jwtVerify_makeJWT (s secret : String) (L t now : Int) :
    jwtVerify (makeJWT s L secret t) secret now =
      if t + L ≤ now then .error .tokenExpired
      else .ok { iss := some "chirpy", sub := some s, iat := some t,
                 exp := some (t + L) } := by
  simp only [makeJWT, jwtSign, jwtVerify]
  simp [jwtAllowedAlgs]

/-- Auxiliary for the revoke UPDATE: under primary-key uniqueness of
`token`, RETURNING on the updated rows yields the updated version of the
matching record. -/
theorem revoke_find_updated (t : String) (now : Int)
    (l : List RefreshTokenRecord)
    (hpk : ∀ r1 ∈ l, ∀ r2 ∈ l, r1.token = r2.token → r1 = r2)
    (r : RefreshTokenRecord) (hr : r ∈ l) (ht : r.token = t) :
    (l.map (revokeUpdateRow t now)).find? (fun x => x.token == t) =
      some { r with revokedAt := some now, updatedAt := now } := by
  induction l with
  | nil => cases hr
  | cons a as ih =>
      by_cases ha : a.token = t
      · have hra : r = a := hpk r hr a (List.mem_cons_self a as) (ht.trans ha.symm)
        subst hra
        simp [List.find?_cons, revokeUpdateRow, ha]
      · have hr2 : r ∈ as := by
          cases hr with
          | head => exact absurd ht ha
          | tail _ h => exact h
        have hpk2 : ∀ r1 ∈ as, ∀ r2 ∈ as, r1.token = r2.token → r1 = r2 :=
          fun r1 h1 r2 h2 =>
            hpk r1 (List.mem_cons_of_mem _ h1) r2 (List.mem_cons_of_mem _ h2)
        simpa [List.find?_cons, revokeUpdateRow, ha] using ih hpk2 hr2

/-! ## Claim theorems -/

/-- C1: for a token issued by makeJWT and validated with the same secret at
or after its expiry, `validateJWT` does NOT fail with the TokenExpired kind
("Token has expired"): because `TokenExpiredError` is a subclass of
`JsonWebTokenError` and the catch block tests `instanceof JsonWebTokenError`
first, the expired token is reported as "Invalid token".  Evaluated at the
failing input: a token with lifetime 0, issued and validated at the same
instant, under the same secret. -/
theorem C1_expired_token_yields_invalid_token :
    validateJWT (makeJWT "user123" 0 "test-secret-key" 1700000000)
        "test-secret-key" 1700000000 = .error "Invalid token" ∧
    (Except.error "Invalid token" : Except String String) ≠
      .error "Token has expired" :=
  ⟨rfl, by decide⟩

/-- C2 counterexample: a token whose signature verifies under the secret
("k") and whose payload lacks `sub` makes `validateJWT` fail with the
re-thrown generic error "Token does not contain a subject", not with the
InvalidToken kind ("Invalid token") the claim asserts. -/
theorem C2_counterexample :
    jwtVerify subjectlessToken "k" 0 = .ok subjectlessPayload ∧
    subjectlessPayload.sub = none ∧
    validateJWT subjectlessToken "k" 0 ≠ .error "Invalid token" :=
  ⟨rfl, rfl, by decide⟩

/-- C2 (amended): for every token accepted by `jwt.verify` under the given
secret whose payload lacks a `sub` field, `validateJWT` fails with the
generic error "Token does not contain a subject" — a distinct, unlabeled
error kind (re-thrown unchanged by the catch block), not InvalidToken. -/
theorem C2_missing_subject_is_distinct_error (tok : JwtToken)
    (secret : String) (now : Int) (p : JwtPayload)
    (hv : jwtVerify tok secret now = .ok p) (hsub : p.sub = none) :
    validateJWT tok secret now = .error "Token does not contain a subject" := by
  simp [validateJWT, validateJWTBody, hv, hsub, validateJWTCatch]

/-- C2 witness: the amended theorem applied to the concrete subjectless
token. -/
theorem C2_missing_subject_is_distinct_error_witness :
    validateJWT subjectlessToken "k" 0 =
      .error "Token does not contain a subject" :=
  C2_missing_subject_is_distinct_error subjectlessToken "k" 0
    subjectlessPayload rfl rfl

/-- C3 counterexample: the claimed round-trip identity fails at lifetime
L = 0 (the token is already expired at the issuance instant, and the
expiry bug reports it as "Invalid token") and at the empty subject
(`!decoded.sub` treats "" as missing). -/
theorem C3_counterexample :
    validateJWT (makeJWT "user123" 0 "k" 100) "k" 100 ≠ .ok "user123" ∧
    validateJWT (makeJWT "" 5 "k" 100) "k" 100 ≠ .ok "" :=
  ⟨by decide, by decide⟩

/-- C3 (amended): for every non-empty subject s, every lifetime L ≥ 1 and
every secret, validating the token issued by makeJWT(s, L, secret) with the
same secret at the instant of issuance succeeds and returns exactly s. -/
theorem C3_issue_validate_roundtrip (s : String) (L : Int) (secret : String)
    (t : Int) (hs : s ≠ "") (hL : 1 ≤ L) :
    validateJWT (makeJWT s L secret t) secret t = .ok s := by
  have hlt : ¬ (t + L ≤ t) := by omega
  simp [validateJWT, validateJWTBody, jwtVerify_makeJWT, hlt, hs]

/-- C3 witness: the amended round-trip at a concrete subject, lifetime and
instant. -/
theorem C3_issue_validate_roundtrip_witness :
    validateJWT (makeJWT "user123" 3600 "k" 100) "k" 100 = .ok "user123" :=
  C3_issue_validate_roundtrip "user123" 3600 "k" 100 (by decide) (by decide)

/-- C4: validating a token issued under one secret with a different secret
fails with the InvalidToken kind ("Invalid token"): the signature check
fails inside `jwt.verify` (before any expiry check), throws
`JsonWebTokenError`, and the catch block maps it to "Invalid token" — it
never returns a subject and never escapes as an untyped failure. -/
theorem C4_wrong_secret_invalid_token (s : String) (L : Int)
    (secret1 secret2 : String) (t now : Int) (h : secret1 ≠ secret2) :
    validateJWT (makeJWT s L secret1 t) secret2 now = .error "Invalid token" := by
  have hsig : jwtVerify (makeJWT s L secret1 t) secret2 now =
      .error .invalidSignature := by
    simp only [makeJWT, jwtSign, jwtVerify]
    simp [jwtAllowedAlgs, Hs256Sig.mk.injEq, h]
  simp [validateJWT, validateJWTBody, hsig, validateJWTCatch,
    JwtVerifyError.isJsonWebTokenError]

/-- C4 witness: the wrong-secret failure at concrete inputs. -/
theorem C4_wrong_secret_invalid_token_witness :
    validateJWT (makeJWT "user123" 3600 "secret-one" 100) "secret-two" 100 =
      .error "Invalid token" :=
  C4_wrong_secret_invalid_token "user123" 3600 "secret-one" "secret-two"
    100 100 (by decide)

/-- C5: full characterization of `getBearerToken`.  It fails with
"Authorization header is missing" iff the header is absent or empty after
trimming; it fails with "Authorization header must start with
\x27Bearer \x27" iff the trimmed header is non-empty and does not start
with the literal "Bearer " (so the value exactly "Bearer" is malformed,
not an empty token); otherwise it returns the trimmed header with the
7-character prefix stripped and the remainder trimmed. -/
theorem C5_getBearerToken_characterization (h : Option String) :
    (getBearerToken h = .error "Authorization header is missing" ↔
       h = none ∨ ∃ s, h = some s ∧ jsTrim s = "") ∧
    (getBearerToken h =
         .error "Authorization header must start with \x27Bearer \x27" ↔
       ∃ s, h = some s ∧ jsTrim s ≠ "" ∧
         jsStartsWith (jsTrim s) "Bearer " = false) ∧
    (∀ s, h = some s → jsTrim s ≠ "" →
       jsStartsWith (jsTrim s) "Bearer " = true →
       getBearerToken h = .ok (jsTrim (jsSubstringFrom (jsTrim s) 7))) := by
  cases h with
  | none =>
      refine ⟨by simp [getBearerToken], by simp [getBearerToken], ?_⟩
      intro s hs
      exact absurd hs (by simp)
  | some s =>
      by_cases hempty : jsTrim s = ""
      · have heq : getBearerToken (some s) =
            .error "Authorization header is missing" := by
          simp [getBearerToken, hempty]
        refine ⟨?_, ?_, ?_⟩
        · rw [heq]
          simp [hempty]
        · rw [heq]
          constructor
          · intro hcontra
            simp only [Except.error.injEq] at hcontra
            exact absurd hcontra (by decide)
          · rintro ⟨s2, hs2, hne, _⟩
            cases hs2
            exact absurd hempty hne
        · intro s2 hs2 hne _
          cases hs2
          exact absurd hempty hne
      · have hsne : s ≠ "" := by
          intro hs0
          subst hs0
          exact hempty rfl
        by_cases hbw : jsStartsWith (jsTrim s) "Bearer " = true
        · have heq : getBearerToken (some s) =
              .ok (jsTrim (jsSubstringFrom (jsTrim s) 7)) := by
            simp [getBearerToken, hempty, hsne, hbw]
          refine ⟨?_, ?_, ?_⟩
          · rw [heq]
            constructor
            · intro hcontra
              exact absurd hcontra (by simp)
            · rintro (hn | ⟨s2, hs2, htr⟩)
              · exact absurd hn (by simp)
              · cases hs2
                exact absurd htr hempty
          · rw [heq]
            constructor
            · intro hcontra
              exact absurd hcontra (by simp)
            · rintro ⟨s2, hs2, _, hbwf⟩
              cases hs2
              rw [hbw] at hbwf
              exact absurd hbwf (by decide)
          · intro s2 hs2 _ _
            cases hs2
            exact heq
        · have hbwf : jsStartsWith (jsTrim s) "Bearer " = false := by
            simpa using hbw
          have heq : getBearerToken (some s) =
              .error "Authorization header must start with \x27Bearer \x27" := by
            simp [getBearerToken, hempty, hsne, hbwf]
          refine ⟨?_, ?_, ?_⟩
          · rw [heq]
            constructor
            · intro hcontra
              simp only [Except.error.injEq] at hcontra
              exact absurd hcontra (by decide)
            · rintro (hn | ⟨s2, hs2, htr⟩)
              · exact absurd hn (by simp)
              · cases hs2
                exact absurd htr hempty
          · rw [heq]
            simp [hempty, hbwf]
          · intro s2 hs2 _ hsw
            cases hs2
            exact absurd hsw hbw

/-- C5 witness: the characterization applied at a concrete header with
extra internal whitespace and at the edge case "Bearer". -/
theorem C5_getBearerToken_characterization_witness :
    getBearerToken (some "  Bearer   tok123  ") = .ok "tok123" ∧
    getBearerToken (some "Bearer") =
      .error "Authorization header must start with \x27Bearer \x27" :=
  ⟨(C5_getBearerToken_characterization (some "  Bearer   tok123  ")).2.2
      "  Bearer   tok123  " rfl (by decide) (by decide),
   ((C5_getBearerToken_characterization (some "Bearer")).2.1).mpr
      ⟨"Bearer", rfl, by decide, by decide⟩⟩

/-- C6: redemption is characterized by the WHERE clause.  Under the schema
invariants (token is the primary key; user_id references users.id),
`redeemRefreshToken` returns the owning user id iff storage holds a record
with that token string, a null `revokedAt` and an expiry strictly in the
future; in every other case — including a record whose expiry has passed
while `revokedAt` is still null — it fails with
"Invalid or expired refresh token". -/
theorem C6_redeem_characterization (db : DB) (t : String) (now : Int)
    (hpk : ∀ r1 ∈ db.refreshTokens, ∀ r2 ∈ db.refreshTokens,
      r1.token = r2.token → r1 = r2)
    (href : ∀ r ∈ db.refreshTokens, ∃ u ∈ db.users, u.id = r.userId) :
    (∀ uid, redeemRefreshToken db t now = .ok uid ↔
       ∃ r ∈ db.refreshTokens,
         r.token = t ∧ r.revokedAt = none ∧ now < r.expiresAt ∧
           r.userId = uid) ∧
    ((¬ ∃ r ∈ db.refreshTokens,
         r.token = t ∧ r.revokedAt = none ∧ now < r.expiresAt) →
       redeemRefreshToken db t now = .error "Invalid or expired refresh token") := by
  constructor
  · intro uid
    constructor
    · intro hok
      cases hfind : db.refreshTokens.find? (refreshTokenUsable t now) with
      | none =>
          rw [show redeemRefreshToken db t now =
              .error "Invalid or expired refresh token" by
            simp [redeemRefreshToken, getUserFromRefreshToken, hfind]] at hok
          exact absurd hok (by simp)
      | some r =>
          have hrp := (refreshTokenUsable_iff t now r).mp (List.find?_some hfind)
          have hrmem := List.mem_of_find?_eq_some hfind
          cases hufind : db.users.find? (fun u => u.id == r.userId) with
          | none =>
              rw [show redeemRefreshToken db t now =
                  .error "Invalid or expired refresh token" by
                simp [redeemRefreshToken, getUserFromRefreshToken, hfind,
                  hufind]] at hok
              exact absurd hok (by simp)
          | some u =>
              have huid : u.id = r.userId := by
                simpa using List.find?_some hufind
              have hok2 : redeemRefreshToken db t now = .ok u.id := by
                simp [redeemRefreshToken, getUserFromRefreshToken, hfind, hufind]
              rw [hok2] at hok
              have : u.id = uid := by simpa using hok
              exact ⟨r, hrmem, hrp.1, hrp.2.1, hrp.2.2, by rw [← huid, this]⟩
    · rintro ⟨r, hrmem, htok, hrev, hexp, huid⟩
      have husable : refreshTokenUsable t now r = true :=
        (refreshTokenUsable_iff t now r).mpr ⟨htok, hrev, hexp⟩
      have hsome : (db.refreshTokens.find? (refreshTokenUsable t now)).isSome :=
        List.find?_isSome.mpr ⟨r, hrmem, husable⟩
      obtain ⟨r0, hr0⟩ := Option.isSome_iff_exists.mp hsome
      have hr0p := (refreshTokenUsable_iff t now r0).mp (List.find?_some hr0)
      have hr0mem := List.mem_of_find?_eq_some hr0
      have hr0r : r0 = r := hpk r0 hr0mem r hrmem (hr0p.1.trans htok.symm)
      subst hr0r
      obtain ⟨u, humem, huid2⟩ := href r0 hr0mem
      have husome : (db.users.find? (fun u => u.id == r0.userId)).isSome :=
        List.find?_isSome.mpr ⟨u, humem, by simp [huid2]⟩
      obtain ⟨u0, hu0⟩ := Option.isSome_iff_exists.mp husome
      have hu0id : u0.id = r0.userId := by
        simpa using List.find?_some hu0
      simp only [redeemRefreshToken, getUserFromRefreshToken, hr0, hu0]
      rw [hu0id, huid]
  · intro hno
    have hfind : db.refreshTokens.find? (refreshTokenUsable t now) = none :=
      List.find?_eq_none.mpr (fun r hr hus =>
        hno ⟨r, hr, (refreshTokenUsable_iff t now r).mp hus⟩)
    simp [redeemRefreshToken, getUserFromRefreshToken, hfind]

/-- C6 witness: in concrete storage, the active record redeems to its
owner "u1", and the record whose expiry has passed (revokedAt still null)
fails with "Invalid or expired refresh token". -/
theorem C6_redeem_characterization_witness :
    redeemRefreshToken c6DB "tok1" 50 = .ok "u1" ∧
    redeemRefreshToken c6DB "tok2" 50 =
      .error "Invalid or expired refresh token" :=
  ⟨((C6_redeem_characterization c6DB "tok1" 50 (by decide) (by decide)).1
      "u1").mpr ⟨c6TokenFresh, by decide, rfl, rfl, by decide, rfl⟩,
   (C6_redeem_characterization c6DB "tok2" 50 (by decide) (by decide)).2
      (by decide)⟩

/-- C7 counterexample: when no record with the presented token string
exists, the revoke path does not fail with NotFound (status 404): the
handler answers 401 `UnauthorizedError("Invalid refresh token")`. -/
theorem C7_counterexample :
    (handlerRevokeRefreshToken emptyDB (some "Bearer tok1") 5).1 =
      .httpError 401 "Invalid refresh token" ∧ (401 : Nat) ≠ 404 :=
  ⟨rfl, by decide⟩

/-- C7 (amended): under primary-key uniqueness of the token column, if a
record with token t exists, `revokeRefreshToken` sets its `revokedAt` to
the current time regardless of the record's expiry or prior revocation
state (an already-revoked token is overwritten, not rejected) and returns
the updated record; if no record with token t exists, the UPDATE matches
nothing, the query returns null leaving storage unchanged, and the handler
fails with a 401 `UnauthorizedError("Invalid refresh token")` — not with
NotFound. -/
theorem C7_revoke_spec (db : DB) (t : String) (now : Int)
    (authHeader : Option String)
    (hpk : ∀ r1 ∈ db.refreshTokens, ∀ r2 ∈ db.refreshTokens,
      r1.token = r2.token → r1 = r2)
    (hbearer : getBearerToken authHeader = .ok t) :
    (∀ r ∈ db.refreshTokens, r.token = t →
       (revokeRefreshToken db t now).1 =
         some { r with revokedAt := some now, updatedAt := now }) ∧
    ((∀ r ∈ db.refreshTokens, r.token ≠ t) →
       revokeRefreshToken db t now = (none, db) ∧
       handlerRevokeRefreshToken db authHeader now =
         (.httpError 401 "Invalid refresh token", db)) := by
  constructor
  · intro r hr ht
    simpa [revokeRefreshToken] using revoke_find_updated t now
      db.refreshTokens hpk r hr ht
  · intro hnone
    have hmap : db.refreshTokens.map (revokeUpdateRow t now) =
        db.refreshTokens := by
      have hcongr : db.refreshTokens.map (revokeUpdateRow t now) =
          db.refreshTokens.map id :=
        List.map_congr_left (fun a ha => by
          simp [revokeUpdateRow, hnone a ha])
      rw [hcongr, List.map_id]
    have hfind : db.refreshTokens.find? (fun x => x.token == t) = none :=
      List.find?_eq_none.mpr (fun x hx => by simp [hnone x hx])
    have hq : revokeRefreshToken db t now = (none, db) := by
      have h1 : revokeRefreshToken db t now =
          ((db.refreshTokens.map (revokeUpdateRow t now)).find?
             (fun r => r.token == t),
           { db with refreshTokens :=
               db.refreshTokens.map (revokeUpdateRow t now) }) := rfl
      rw [h1, hmap, hfind]
    refine ⟨hq, ?_⟩
    simp [handlerRevokeRefreshToken, hbearer, hq]

/-- C7 witness: the amended behaviour at concrete inputs — an expired,
already-revoked record is overwritten with the new revocation time, and
revoking an absent token answers 401 "Invalid refresh token". -/
theorem C7_revoke_spec_witness :
    (revokeRefreshToken c7DB "tok1" 50).1 =
      some ⟨"tok1", 0, 50, "u1", 10, some 50⟩ ∧
    handlerRevokeRefreshToken emptyDB (some "Bearer tokX") 50 =
      (.httpError 401 "Invalid refresh token", emptyDB) :=
  ⟨(C7_revoke_spec c7DB "tok1" 50 (some "Bearer tok1") (by decide)
      rfl).1 c7Record (by decide) rfl,
   ((C7_revoke_spec emptyDB "tokX" 50 (some "Bearer tokX") (by decide)
      rfl).2 (by decide)).2⟩

/-- C8: redemption is read-only.  The refresh handler (whose redemption
step is the SELECT `getUserFromRefreshToken`) leaves the database — and so
every stored refresh record — completely unchanged, and consequently a
token string that redeems successfully still redeems, to the same owner,
against the post-request state: no rotation, no invalidation. -/
theorem C8_redeem_is_readonly (db : DB) (authHeader : Option String)
    (secret : String) (now : Int) :
    (handlerRefreshAccessToken db authHeader secret now).2 = db ∧
    (∀ t uid, redeemRefreshToken db t now = .ok uid →
       redeemRefreshToken (handlerRefreshAccessToken db authHeader secret now).2
         t now = .ok uid) := by
  have hdb : (handlerRefreshAccessToken db authHeader secret now).2 = db := by
    cases hb : getBearerToken authHeader with
    | error m => simp [handlerRefreshAccessToken, hb]
    | ok ts =>
        have h2 : (getUserFromRefreshToken db ts now).2 = db := rfl
        simp only [handlerRefreshAccessToken, hb]
        cases hq : (getUserFromRefreshToken db ts now).1 with
        | none => simp [hq, h2]
        | some u => simp [hq, h2]
  exact ⟨hdb, fun t uid hok => by rw [hdb]; exact hok⟩

/-- C8 witness: against concrete storage the refresh request leaves the
state intact and the same token redeems again to the same owner. -/
theorem C8_redeem_is_readonly_witness :
    (handlerRefreshAccessToken c8DB (some "Bearer tok1") "k" 50).2 = c8DB ∧
    redeemRefreshToken
      (handlerRefreshAccessToken c8DB (some "Bearer tok1") "k" 50).2
      "tok1" 50 = .ok "u1" :=
  ⟨(C8_redeem_is_readonly c8DB (some "Bearer tok1") "k" 50).1,
   (C8_redeem_is_readonly c8DB (some "Bearer tok1") "k" 50).2
      "tok1" "u1" (by decide)⟩

/-- C9: `checkPasswordHash` returns a boolean for every plaintext and
digest and converts every failure of the underlying `argon2.verify` —
malformed or foreign-format digest and mismatch alike — into the return
value `false`; no error propagates to callers. -/
theorem C9_checkPasswordHash_never_throws
    (argon2verify : String → String → Except String Bool)
    (password hash : String) :
    (∀ msg, argon2verify hash password = .error msg →
       checkPasswordHash argon2verify password hash = false) ∧
    (∀ b, argon2verify hash password = .ok b →
       checkPasswordHash argon2verify password hash = b) := by
  constructor
  · intro msg hmsg
    simp [checkPasswordHash, hmsg]
  · intro b hb
    simp [checkPasswordHash, hb]

/-- C9 witness: an argon2 verifier that rejects the digest
"not-a-valid-hash" still yields the plain return value false. -/
theorem C9_checkPasswordHash_never_throws_witness :
    checkPasswordHash (fun _ _ => .error "invalid hash") "p"
      "not-a-valid-hash" = false :=
  (C9_checkPasswordHash_never_throws (fun _ _ => .error "invalid hash") "p"
      "not-a-valid-hash").1 "invalid hash" rfl

/-- C10: in `handlerCreateChirp`, body validation precedes authentication:
whenever the body field is not a string, longer than 140 characters, or
contains a banned word, the outcome is the corresponding 400 BadRequest —
for every authorization header, token parse and secret, because the bearer
token is extracted and validated only after the body passes validation. -/
theorem C10_body_validation_precedes_auth (parseToken : String → JwtToken)
    (body : BodyField) (authHeader : Option String) (secret : String)
    (now : Int) :
    (body = .notStr →
       handlerCreateChirp parseToken body authHeader secret now =
         .httpError 400 "Body is required and must be a string") ∧
    (∀ s, body = .str s → 140 < s.length →
       handlerCreateChirp parseToken body authHeader secret now =
         .httpError 400 "Chirp is too long. Max length is 140") ∧
    (∀ s, body = .str s → s.length ≤ 140 → hasBannedWord s = true →
       handlerCreateChirp parseToken body authHeader secret now =
         .httpError 400 "Chirp contains banned words") := by
  refine ⟨?_, ?_, ?_⟩
  · rintro rfl
    rfl
  · rintro s rfl hlen
    simp [handlerCreateChirp, hlen]
  · rintro s rfl hlen hbw
    simp [handlerCreateChirp, hbw, Nat.not_lt.mpr hlen]

/-- C10 witness: a non-string body and a banned-word body each produce the
400 error even under an absent or malformed authorization header. -/
theorem C10_body_validation_precedes_auth_witness :
    handlerCreateChirp JwtToken.malformed .notStr none "k" 0 =
      .httpError 400 "Body is required and must be a string" ∧
    handlerCreateChirp JwtToken.malformed (.str "a KERFUFFLE happened")
      (some "Basic xyz") "k" 0 =
      .httpError 400 "Chirp contains banned words" :=
  ⟨(C10_body_validation_precedes_auth JwtToken.malformed .notStr none
      "k" 0).1 rfl,
   (C10_body_validation_precedes_auth JwtToken.malformed
      (.str "a KERFUFFLE happened") (some "Basic xyz") "k" 0).2.2
      "a KERFUFFLE happened" rfl (by decide) (by decide)⟩
